import Mathlib

/-!
Verification of the EduFlow authorization and lifecycle rules.

The definitions below are a shallow embedding of the Python source:
  * users/models.py        (User, Payments, Subscription)
  * materials/models.py    (Course, Lesson, Lesson.save)
  * users/permissions.py   (permission classes)
  * materials/views.py     (CourseViewSet, LessonViewSet)
  * users/views.py         (PaymentsViewSet, SubscriptionViewSet)
  * users/tasks.py         (check_payment_status, deactivate_inactive_users)

The relational store is modelled as lists of records; machine time as Int
seconds; nullable foreign keys as Option Nat over record ids; fallible
paths return Option or explicit status codes.
-/

/-- Name of the moderators group, as used by
groups.filter with the group name in permissions.py and the viewsets. -/
def moderators_group : String := "moderators"

/-- users/models.py User (AbstractUser): fields relevant to policy and
lifecycle. group membership is the list of group names. -/
structure User where
  id : Nat
  is_authenticated : Bool
  is_staff : Bool
  is_superuser : Bool
  is_active : Bool
  last_login : Option Int
  groups : List String
deriving DecidableEq

/-- request.user.groups.filter with the moderators name, then exists:
membership test used throughout permissions.py and the viewsets. -/
def User.in_moderators (u : User) : Bool :=
  u.groups.contains moderators_group

/-- materials/models.py Course: owner is a nullable foreign key
(on_delete SET_NULL). Presentation fields are omitted. -/
structure Course where
  id : Nat
  owner : Option Nat
deriving DecidableEq

/-- materials/models.py Lesson: course is a required foreign key, owner a
nullable one, order a PositiveIntegerField with default 0. -/
structure Lesson where
  id : Nat
  course : Nat
  owner : Option Nat
  order : Nat
deriving DecidableEq

/-- users/models.py Subscription: join of (user, course), unique_together. -/
structure Subscription where
  user : Nat
  course : Nat
deriving DecidableEq

/-- Payment method strings (PAYMENT_METHOD_CHOICES). -/
def cash_method : String := "cash"

/-- Payment status string for a pending payment (PAYMENT_STATUS_CHOICES). -/
def pending_status : String := "pending"

/-- Payment status string for a failed payment (PAYMENT_STATUS_CHOICES). -/
def failed_status : String := "failed"

/-- users/models.py Payments: paid_course and paid_lesson are both
nullable and blank foreign keys; payment_date is auto_now_add; amount is
a decimal, modelled in minor units. -/
structure Payments where
  id : Nat
  user : Nat
  payment_date : Int
  amount : Int
  payment_method : String
  payment_status : String
  paid_course : Option Nat
  paid_lesson : Option Nat
deriving DecidableEq

/-- The relational store: one list per table. -/
structure DB where
  courses : List Course
  lessons : List Lesson
  subscriptions : List Subscription
  payments : List Payments
deriving DecidableEq

/-! ## HTTP methods (rest_framework SAFE_METHODS and the mutating verbs) -/

/-- HTTP request method, as inspected by has_object_permission. -/
inductive Method where
  | GET
  | HEAD
  | OPTIONS
  | POST
  | PUT
  | PATCH
  | DELETE
deriving DecidableEq

/-- permissions.SAFE_METHODS membership: GET, HEAD, OPTIONS. -/
def Method.isSafe : Method → Bool
  | .GET => true
  | .HEAD => true
  | .OPTIONS => true
  | _ => false

/-! ## users/permissions.py -/

/-- rest_framework IsAuthenticated.has_permission. -/
def IsAuthenticated_has_permission (u : User) : Bool :=
  u.is_authenticated

/-- rest_framework IsAdminUser.has_permission: user and user.is_staff. -/
def IsAdminUser_has_permission (u : User) : Bool :=
  u.is_authenticated && u.is_staff

/-- users/permissions.py CanCreateContent.has_permission: returns False
when the user is in the moderators group, True otherwise. -/
def CanCreateContent_has_permission (u : User) : Bool :=
  if u.in_moderators then false else true

/-- users/permissions.py IsOwnerOrModerator.has_object_permission over the
owner field of the object: safe methods allowed; PUT and PATCH allowed for
owner, moderators-group member, or staff; DELETE for owner or staff;
anything else denied. -/
def IsOwnerOrModerator_has_object_permission
    (u : User) (method : Method) (obj_owner : Option Nat) : Bool :=
  if method.isSafe then true
  else if method == Method.PUT || method == Method.PATCH then
    obj_owner == some u.id || u.in_moderators || u.is_staff
  else if method == Method.DELETE then
    obj_owner == some u.id || u.is_staff
  else false

/-- users/permissions.py CanDeleteContent.has_object_permission: owner or
staff. -/
def CanDeleteContent_has_object_permission
    (u : User) (obj_owner : Option Nat) : Bool :=
  obj_owner == some u.id || u.is_staff

/-! ## materials/views.py querysets -/

/-- CourseViewSet.get_queryset: staff or moderators-group members see all
courses, everyone else only courses whose owner is themselves. -/
def CourseViewSet_get_queryset (u : User) (db : DB) : List Course :=
  if u.is_staff || u.in_moderators then db.courses
  else db.courses.filter (fun c => c.owner == some u.id)

/-- LessonViewSet.get_queryset: staff or moderators-group members see all
lessons, everyone else only lessons whose owner is themselves. -/
def LessonViewSet_get_queryset (u : User) (db : DB) : List Lesson :=
  if u.is_staff || u.in_moderators then db.lessons
  else db.lessons.filter (fun l => l.owner == some u.id)

/-- Outcome of a viewset action run through the permission pipeline. -/
inductive Outcome where
  | ok
  | unauthenticated
  | forbidden
  | notFound
deriving DecidableEq

/-! ## materials/views.py detail actions (DRF pipeline: authentication
check, get_object over the filtered queryset giving 404 when absent, then
object-level permission giving 403 when denied) -/

/-- CourseViewSet retrieve: permissions are IsAuthenticated only; the
object is resolved inside get_queryset, so a miss is a 404. -/
def CourseViewSet_retrieve (u : User) (courseId : Nat) (db : DB) : Outcome :=
  if !IsAuthenticated_has_permission u then .unauthenticated
  else
    match (CourseViewSet_get_queryset u db).find? (fun c => c.id == courseId) with
    | none => .notFound
    | some _ => .ok

/-- CourseViewSet create permission gate: IsAuthenticated and
CanCreateContent (get_permissions for action create). -/
def CourseViewSet_create_allowed (u : User) : Bool :=
  IsAuthenticated_has_permission u && CanCreateContent_has_permission u

/-- LessonViewSet create permission gate: IsAuthenticated and
CanCreateContent (get_permissions for action create). -/
def LessonViewSet_create_allowed (u : User) : Bool :=
  IsAuthenticated_has_permission u && CanCreateContent_has_permission u

/-- LessonViewSet retrieve: permissions are IsAuthenticated only; the
object is resolved inside get_queryset, so a miss is a 404. -/
def LessonViewSet_retrieve (u : User) (lessonId : Nat) (db : DB) : Outcome :=
  if !IsAuthenticated_has_permission u then .unauthenticated
  else
    match (LessonViewSet_get_queryset u db).find? (fun l => l.id == lessonId) with
    | none => .notFound
    | some _ => .ok

/-- LessonViewSet update (PUT): IsAuthenticated then get_object then
IsOwnerOrModerator.has_object_permission. -/
def LessonViewSet_update (u : User) (lessonId : Nat) (db : DB) : Outcome :=
  if !IsAuthenticated_has_permission u then .unauthenticated
  else
    match (LessonViewSet_get_queryset u db).find? (fun l => l.id == lessonId) with
    | none => .notFound
    | some l =>
      if IsOwnerOrModerator_has_object_permission u Method.PUT l.owner then .ok
      else .forbidden

/-- LessonViewSet destroy (DELETE): IsAuthenticated then get_object then
CanDeleteContent.has_object_permission. -/
def LessonViewSet_destroy (u : User) (lessonId : Nat) (db : DB) : Outcome :=
  if !IsAuthenticated_has_permission u then .unauthenticated
  else
    match (LessonViewSet_get_queryset u db).find? (fun l => l.id == lessonId) with
    | none => .notFound
    | some l =>
      if CanDeleteContent_has_object_permission u l.owner then .ok
      else .forbidden

/-! ## subscribe endpoints -/

/-- Wire-level response of a subscribe call: HTTP status and, for the
course-level endpoint, the created flag from its 200 body. -/
structure SubscribeResponse where
  status_code : Nat
  created : Option Bool
deriving DecidableEq

/-- Django get_or_create on Subscription for (user, course): return the
existing row with created false, or insert a fresh row and return it with
created true. -/
def Subscription_get_or_create (userId courseId : Nat) (db : DB) :
    (Subscription × Bool) × DB :=
  match db.subscriptions.find? (fun s => s.user == userId && s.course == courseId) with
  | some s => ((s, false), db)
  | none =>
    let s : Subscription := ⟨userId, courseId⟩
    ((s, true), { db with subscriptions := db.subscriptions ++ [s] })

/-- materials/views.py CourseViewSet.subscribe: permissions fall through
to IsAuthenticated; get_object resolves the course inside the filtered
queryset (404 on miss); then Subscription.objects.get_or_create and a 200
response carrying the created flag. -/
def CourseViewSet_subscribe (u : User) (courseId : Nat) (db : DB) :
    SubscribeResponse × DB :=
  if !IsAuthenticated_has_permission u then (⟨401, none⟩, db)
  else
    match (CourseViewSet_get_queryset u db).find? (fun c => c.id == courseId) with
    | none => (⟨404, none⟩, db)
    | some _ =>
      let r := Subscription_get_or_create u.id courseId db
      (⟨200, some r.1.2⟩, r.2)

/-- users/views.py SubscriptionViewSet.subscribe: IsAuthenticated; a falsy
course_id (absent or zero) gives 400; Course.objects.get by id over the
whole table (404 on miss); an existing (user, course) row gives 400 with
an already-subscribed error; otherwise Subscription.objects.create and
201. -/
def SubscriptionViewSet_subscribe (u : User) (course_id : Option Nat) (db : DB) :
    SubscribeResponse × DB :=
  if !IsAuthenticated_has_permission u then (⟨401, none⟩, db)
  else if course_id.getD 0 == 0 then (⟨400, none⟩, db)
  else
    match db.courses.find? (fun c => c.id == course_id.getD 0) with
    | none => (⟨404, none⟩, db)
    | some c =>
      if db.subscriptions.any (fun s => s.user == u.id && s.course == c.id) then
        (⟨400, none⟩, db)
      else
        (⟨201, none⟩, { db with subscriptions := db.subscriptions ++ [⟨u.id, c.id⟩] })

/-! ## materials/models.py Lesson.save auto-ordering -/

/-- Lesson.objects.filter by course, order_by descending order, first():
an element of maximal order, earliest listed among ties (stable sort). -/
def order_desc_first : List Lesson → Option Lesson
  | [] => none
  | x :: xs =>
    match order_desc_first xs with
    | none => some x
    | some m => if m.order ≤ x.order then some x else some m

/-- Lesson.save: when order is the sentinel default 0, assign the maximal
order among lessons of the same course plus one, or 1 when there are
none; otherwise keep the supplied order. Returns the saved lesson. -/
def Lesson_save (l : Lesson) (db : DB) : Lesson :=
  if l.order == 0 then
    match order_desc_first (db.lessons.filter (fun x => x.course == l.course)) with
    | some last_lesson => { l with order := last_lesson.order + 1 }
    | none => { l with order := 1 }
  else l

/-! ## users/tasks.py periodic jobs -/

/-- Seconds in 24 hours, the staleness horizon of check_payment_status. -/
def seconds_24h : Int := 24 * 60 * 60

/-- Seconds in 30 days, the horizon of deactivate_inactive_users. -/
def seconds_30d : Int := 30 * 24 * 60 * 60

/-- users/tasks.py check_payment_status: every payment with status
pending and payment_date at or before now minus 24 hours is saved with
status failed; the rest of the table is untouched. -/
def check_payment_status (now : Int) (payments : List Payments) : List Payments :=
  payments.map (fun p =>
    if p.payment_status == pending_status && decide (p.payment_date ≤ now - seconds_24h) then
      { p with payment_status := failed_status }
    else p)

/-- users/tasks.py deactivate_inactive_users: users with a last_login
strictly before now minus 30 days (a null last_login never matches the
lt lookup) and is_active true, excluding staff and superusers, get
is_active set to false by a bulk update; all other rows are untouched. -/
def deactivate_inactive_users (now : Int) (users : List User) : List User :=
  users.map (fun u =>
    if (match u.last_login with
        | some t => decide (t < now - seconds_30d)
        | none => false)
        && u.is_active && !u.is_staff && !u.is_superuser then
      { u with is_active := false }
    else u)

/-! ## users/views.py PaymentsViewSet create path -/

/-- Payment method string for a bank transfer (PAYMENT_METHOD_CHOICES). -/
def transfer_method : String := "transfer"

/-- Payment method string for Stripe (PAYMENT_METHOD_CHOICES). -/
def stripe_method : String := "stripe"

/-- Payment status string for a settled payment (PAYMENT_STATUS_CHOICES). -/
def paid_status : String := "paid"

/-- Payment status string for a refunded payment (PAYMENT_STATUS_CHOICES). -/
def refunded_status : String := "refunded"

/-- users/models.py PAYMENT_METHOD_CHOICES keys. -/
def PAYMENT_METHOD_CHOICES : List String :=
  [cash_method, transfer_method, stripe_method]

/-- users/models.py PAYMENT_STATUS_CHOICES keys. -/
def PAYMENT_STATUS_CHOICES : List String :=
  [pending_status, paid_status, failed_status, refunded_status]

/-- Request body of a payment create call, with absent keys as none. -/
structure PaymentsCreateInput where
  user : Option Nat
  amount : Option Int
  payment_method : Option String
  payment_status : Option String
  paid_course : Option Nat
  paid_lesson : Option Nat
deriving DecidableEq

/-- Validated attrs produced by the payments serializer. -/
structure PaymentsAttrs where
  user : Nat
  amount : Int
  payment_method : String
  payment_status : String
  paid_course : Option Nat
  paid_lesson : Option Nat
deriving DecidableEq

/-- users/serializers.py PaymentsSerializer validation: user and amount
are required model fields; payment_method and payment_status fall back to
the model defaults and must be among the declared choices; paid_course
and paid_lesson are optional and nullable. The serializer declares no
validate override and the Payments model declares no clean, so no
relation between paid_course and paid_lesson is checked anywhere. -/
def PaymentsSerializer_run_validation
    (inp : PaymentsCreateInput) : Option PaymentsAttrs :=
  match inp.user, inp.amount with
  | some uid, some amt =>
    let method := inp.payment_method.getD cash_method
    let status := inp.payment_status.getD pending_status
    if PAYMENT_METHOD_CHOICES.contains method
        && PAYMENT_STATUS_CHOICES.contains status then
      some ⟨uid, amt, method, status, inp.paid_course, inp.paid_lesson⟩
    else none
  | _, _ => none

/-- users/views.py PaymentsViewSet create: permission IsAdminUser; on
invalid data a 400 with no row stored; otherwise perform_create saves the
row (user forced to the requester when the requester is not staff) with
payment_date set by auto_now_add. Result is the HTTP status and store. -/
def PaymentsViewSet_create (u : User) (inp : PaymentsCreateInput)
    (now : Int) (db : DB) : Nat × DB :=
  if !IsAdminUser_has_permission u then (403, db)
  else
    match PaymentsSerializer_run_validation inp with
    | none => (400, db)
    | some attrs =>
      let row : Payments :=
        ⟨db.payments.length + 1,
         if !u.is_staff then u.id else attrs.user,
         now, attrs.amount, attrs.payment_method, attrs.payment_status,
         attrs.paid_course, attrs.paid_lesson⟩
      (201, { db with payments := db.payments ++ [row] })

/-! ## Spec-side definitions (stated from the words of spec.md, for
comparison against the source embedding) -/

/-- Spec invariant on Payments: exactly one of paid_course and
paid_lesson is non-null. -/
def exactly_one_paid (p : Payments) : Bool :=
  p.paid_course.isSome != p.paid_lesson.isSome

/-- Maximum of the order fields of a lesson list, as the words max(order
of existing lessons in the same course) read, none for an empty list. -/
def spec_max_order : List Lesson → Option Nat
  | [] => none
  | x :: xs =>
    match spec_max_order xs with
    | none => some x.order
    | some m => some (Nat.max x.order m)

/-! ## Concrete fixtures used by witnesses and counterexamples -/

/-- An authenticated regular user: not staff, no groups. -/
def u_regular : User := ⟨1, true, false, false, true, none, []⟩

/-- An authenticated moderator: in the moderators group, not staff. -/
def u_moderator : User := ⟨2, true, false, false, true, none, [moderators_group]⟩

/-- An authenticated admin: staff, no groups. -/
def u_admin : User := ⟨3, true, true, false, true, none, []⟩

/-- An authenticated staff member who is also in the moderators group. -/
def u_admin_mod : User := ⟨4, true, true, false, true, none, [moderators_group]⟩

/-! ## Claim C1 -/

/-- Claim C1 (code_bug evidence): the payment create path accepts and
stores a row with both paid_course and paid_lesson set, and likewise a
row with neither set, returning 201 in both cases; no validation error is
raised and the stored rows violate the exactly-one invariant. -/
theorem C1_payments_create_path_stores_invalid :
    (PaymentsViewSet_create u_admin ⟨some 1, some 10000, none, none, some 1, some 2⟩
      1000 ⟨[⟨1, some 1⟩], [⟨2, 1, some 1, 1⟩], [], []⟩).1 = 201
    ∧ (PaymentsViewSet_create u_admin ⟨some 1, some 10000, none, none, some 1, some 2⟩
      1000 ⟨[⟨1, some 1⟩], [⟨2, 1, some 1, 1⟩], [], []⟩).2.payments.any
        (fun p => !exactly_one_paid p) = true
    ∧ (PaymentsViewSet_create u_admin ⟨some 1, some 10000, none, none, none, none⟩
      1000 ⟨[⟨1, some 1⟩], [⟨2, 1, some 1, 1⟩], [], []⟩).1 = 201
    ∧ (PaymentsViewSet_create u_admin ⟨some 1, some 10000, none, none, none, none⟩
      1000 ⟨[⟨1, some 1⟩], [⟨2, 1, some 1, 1⟩], [], []⟩).2.payments.any
        (fun p => !exactly_one_paid p) = true := by decide

/-! ## Claim C2 counterexample -/

/-- Claim C2 counterexample: through the SubscriptionViewSet subscribe
endpoint, the second subscribe call for the same (user, course) pair does
not succeed with a created false indicator: it is rejected with HTTP 400,
so the claim as stated fails on this subscribe operation. -/
theorem C2_subscription_subscribe_repeat_errors :
    (SubscriptionViewSet_subscribe u_regular (some 1)
      ⟨[⟨1, some 1⟩], [], [], []⟩).1.status_code = 201
    ∧ (SubscriptionViewSet_subscribe u_regular (some 1)
      (SubscriptionViewSet_subscribe u_regular (some 1)
        ⟨[⟨1, some 1⟩], [], [], []⟩).2).1.status_code = 400 := by decide

/-! ## Claim C3 -/

/-- Claim C3 counterexample: an is_staff user who is also a member of the
moderators group is denied the create action on both Course and Lesson,
so staff status does not supersede the moderator check in
CanCreateContent. -/
theorem C3_staff_in_moderators_denied_create :
    u_admin_mod.is_staff = true ∧ u_admin_mod.in_moderators = true
    ∧ u_admin_mod.is_authenticated = true
    ∧ CourseViewSet_create_allowed u_admin_mod = false
    ∧ LessonViewSet_create_allowed u_admin_mod = false := by decide

/-- Claim C3 (amended): for every authenticated staff user, the create
action on Course and Lesson is allowed exactly when the user is not a
member of the moderators group; staff status does not override the group
check. -/
theorem C3_create_depends_only_on_group (u : User)
    (hauth : u.is_authenticated = true) (hstaff : u.is_staff = true) :
    CourseViewSet_create_allowed u = !u.in_moderators
    ∧ LessonViewSet_create_allowed u = !u.in_moderators := by
  constructor <;>
    simp [CourseViewSet_create_allowed, LessonViewSet_create_allowed,
      IsAuthenticated_has_permission, CanCreateContent_has_permission, hauth] <;>
    cases u.in_moderators <;> simp

/-- Witness for C3: the amended statement evaluated at the plain admin
fixture. -/
theorem C3_create_depends_only_on_group_witness :
    CourseViewSet_create_allowed u_admin = !u_admin.in_moderators
    ∧ LessonViewSet_create_allowed u_admin = !u_admin.in_moderators :=
  C3_create_depends_only_on_group u_admin rfl rfl

/-! ## Claim C5 counterexample -/

/-- Claim C5 counterexample: a moderator who owns a lesson may delete it,
because CanDeleteContent grants owners regardless of role, so delete is
not denied for every moderator on every lesson. -/
theorem C5_moderator_owner_can_delete :
    u_moderator.is_staff = false ∧ u_moderator.in_moderators = true
    ∧ LessonViewSet_destroy u_moderator 1
        ⟨[⟨1, some 2⟩], [⟨1, 1, some 2, 1⟩], [], []⟩ = Outcome.ok := by decide

/-! ## Claim C9 counterexample -/

/-- Claim C9 counterexample: a pending payment whose age is exactly 24
hours is not older than 24 hours, yet the sweep changes its status to
failed, because the query uses a less-or-equal cutoff; so not every
payment outside the older-than-24-hours set is left unchanged. -/
theorem C9_sweep_at_exact_24h_boundary :
    ¬((seconds_24h + seconds_24h) - (⟨1, 1, seconds_24h, 100, cash_method,
        pending_status, some 1, none⟩ : Payments).payment_date > seconds_24h)
    ∧ check_payment_status (seconds_24h + seconds_24h)
        [⟨1, 1, seconds_24h, 100, cash_method, pending_status, some 1, none⟩]
      ≠ [⟨1, 1, seconds_24h, 100, cash_method, pending_status, some 1, none⟩] := by
  decide

/-! ## Claim C2 -/

/-- Claim C2 (amended): through the course-level subscribe action, for a
user with the course in their visible set and no existing row for the
pair, the first call returns 200 with created true, the second call
returns 200 with created false, leaves the store unchanged, and exactly
one Subscription row for the pair exists afterward; through the
SubscriptionViewSet subscribe endpoint a repeated call is instead
rejected with HTTP 400 and the store is left unchanged, so no duplicate
row arises there either. -/
theorem C2_course_subscribe_idempotent (u : User) (cid : Nat) (db : DB)
    (c : Course)
    (hauth : u.is_authenticated = true)
    (hfind : (CourseViewSet_get_queryset u db).find? (fun x => x.id == cid) = some c)
    (hnone : db.subscriptions.countP (fun s => s.user == u.id && s.course == cid) = 0) :
    (CourseViewSet_subscribe u cid db).1 = ⟨200, some true⟩
    ∧ (CourseViewSet_subscribe u cid (CourseViewSet_subscribe u cid db).2).1
        = ⟨200, some false⟩
    ∧ (CourseViewSet_subscribe u cid (CourseViewSet_subscribe u cid db).2).2
        = (CourseViewSet_subscribe u cid db).2
    ∧ ((CourseViewSet_subscribe u cid db).2).subscriptions.countP
        (fun s => s.user == u.id && s.course == cid) = 1
    ∧ (∀ (v : User) (k : Nat) (db2 : DB) (c2 : Course),
        v.is_authenticated = true →
        db2.courses.find? (fun x => x.id == k) = some c2 →
        db2.subscriptions.any (fun s => s.user == v.id && s.course == c2.id) = true →
        SubscriptionViewSet_subscribe v (some k) db2 = (⟨400, none⟩, db2)) := by
  have hfn : db.subscriptions.find?
      (fun s => s.user == u.id && s.course == cid) = none := by
    rw [List.find?_eq_none]
    intro x hx
    have hz := List.countP_eq_zero.mp hnone x hx
    simpa using hz
  have h1 : CourseViewSet_subscribe u cid db
      = (⟨200, some true⟩,
         { db with subscriptions := db.subscriptions ++ [⟨u.id, cid⟩] }) := by
    simp [CourseViewSet_subscribe, IsAuthenticated_has_permission, hauth, hfind,
      Subscription_get_or_create, hfn]
  have hq : CourseViewSet_get_queryset u
      { db with subscriptions := db.subscriptions ++ [⟨u.id, cid⟩] }
      = CourseViewSet_get_queryset u db := rfl
  have happ : (db.subscriptions ++ [(⟨u.id, cid⟩ : Subscription)]).find?
      (fun s => s.user == u.id && s.course == cid)
      = some ⟨u.id, cid⟩ := by
    rw [List.find?_append, hfn]
    simp
  have h2 : CourseViewSet_subscribe u cid
      { db with subscriptions := db.subscriptions ++ [⟨u.id, cid⟩] }
      = (⟨200, some false⟩,
         { db with subscriptions := db.subscriptions ++ [⟨u.id, cid⟩] }) := by
    simp [CourseViewSet_subscribe, IsAuthenticated_has_permission, hauth, hq, hfind,
      Subscription_get_or_create, happ]
  refine ⟨by rw [h1], by rw [h1, h2], by rw [h1, h2], ?_, ?_⟩
  · rw [h1]
    simp [List.countP_append, hnone, List.countP_cons]
  · intro v k db2 c2 hv hfindc hany
    by_cases hk : k = 0
    · simp [SubscriptionViewSet_subscribe, IsAuthenticated_has_permission, hv, hk]
    · simp [SubscriptionViewSet_subscribe, IsAuthenticated_has_permission, hv, hk,
        hfindc, hany]

/-- Witness for C2: the amended statement evaluated for the regular user
fixture on a store holding one course they own and no subscriptions. -/
theorem C2_course_subscribe_idempotent_witness :
    (CourseViewSet_subscribe u_regular 1 ⟨[⟨1, some 1⟩], [], [], []⟩).1
      = ⟨200, some true⟩
    ∧ (CourseViewSet_subscribe u_regular 1
        (CourseViewSet_subscribe u_regular 1 ⟨[⟨1, some 1⟩], [], [], []⟩).2).1
      = ⟨200, some false⟩
    ∧ (CourseViewSet_subscribe u_regular 1
        (CourseViewSet_subscribe u_regular 1 ⟨[⟨1, some 1⟩], [], [], []⟩).2).2
      = (CourseViewSet_subscribe u_regular 1 ⟨[⟨1, some 1⟩], [], [], []⟩).2
    ∧ ((CourseViewSet_subscribe u_regular 1 ⟨[⟨1, some 1⟩], [], [], []⟩).2).subscriptions.countP
        (fun s => s.user == u_regular.id && s.course == 1) = 1
    ∧ (∀ (v : User) (k : Nat) (db2 : DB) (c2 : Course),
        v.is_authenticated = true →
        db2.courses.find? (fun x => x.id == k) = some c2 →
        db2.subscriptions.any (fun s => s.user == v.id && s.course == c2.id) = true →
        SubscriptionViewSet_subscribe v (some k) db2 = (⟨400, none⟩, db2)) :=
  C2_course_subscribe_idempotent u_regular 1 ⟨[⟨1, some 1⟩], [], [], []⟩
    ⟨1, some 1⟩ rfl (by decide) (by decide)

/-! ## Claims C4 and C10: hidden courses resolve to 404 -/

/-- For a regular user, the filtered course queryset holds no course with
the requested id when every course of that id is owned by someone else. -/
lemma regular_course_find_none (u : User) (cid : Nat) (db : DB)
    (hs : u.is_staff = false) (hm : u.in_moderators = false)
    (howner : ∀ c ∈ db.courses, c.id = cid → c.owner ≠ some u.id) :
    (CourseViewSet_get_queryset u db).find? (fun c => c.id == cid) = none := by
  rw [List.find?_eq_none]
  intro x hx
  simp only [CourseViewSet_get_queryset, hs, hm, Bool.or_self, if_neg,
    Bool.false_eq_true, not_false_eq_true, List.mem_filter] at hx
  intro hbeq
  have hid : x.id = cid := by simpa using hbeq
  exact howner x hx.1 hid (by simpa using hx.2)

/-- Claim C4: for an authenticated regular user and a course id all of
whose rows are owned by someone else, read_detail resolves inside the
owner-filtered queryset and yields the not-found outcome, never the
forbidden one. -/
theorem C4_regular_nonowner_detail_not_found (u : User) (cid : Nat) (db : DB)
    (hauth : u.is_authenticated = true)
    (hs : u.is_staff = false) (hm : u.in_moderators = false)
    (howner : ∀ c ∈ db.courses, c.id = cid → c.owner ≠ some u.id) :
    CourseViewSet_retrieve u cid db = Outcome.notFound := by
  have hfn := regular_course_find_none u cid db hs hm howner
  simp [CourseViewSet_retrieve, IsAuthenticated_has_permission, hauth, hfn]

/-- Witness for C4: the regular user fixture asking for a course owned by
user 2 gets a 404 outcome. -/
theorem C4_regular_nonowner_detail_not_found_witness :
    CourseViewSet_retrieve u_regular 2 ⟨[⟨2, some 2⟩], [], [], []⟩
      = Outcome.notFound :=
  C4_regular_nonowner_detail_not_found u_regular 2 ⟨[⟨2, some 2⟩], [], [], []⟩
    rfl rfl rfl (by decide)

/-- Claim C10: for an authenticated regular user and a course id all of
whose rows are owned by someone else, the course-level subscribe action
yields 404 and leaves the store unchanged, so no subscription row is
created for a course outside the visible set. -/
theorem C10_subscribe_hidden_course_not_found (u : User) (cid : Nat) (db : DB)
    (hauth : u.is_authenticated = true)
    (hs : u.is_staff = false) (hm : u.in_moderators = false)
    (howner : ∀ c ∈ db.courses, c.id = cid → c.owner ≠ some u.id) :
    CourseViewSet_subscribe u cid db = (⟨404, none⟩, db) := by
  have hfn := regular_course_find_none u cid db hs hm howner
  simp [CourseViewSet_subscribe, IsAuthenticated_has_permission, hauth, hfn]

/-- Witness for C10: the regular user fixture subscribing to a course
owned by user 2 gets a 404 and the store is unchanged. -/
theorem C10_subscribe_hidden_course_not_found_witness :
    CourseViewSet_subscribe u_regular 2 ⟨[⟨2, some 2⟩], [], [], []⟩
      = (⟨404, none⟩, ⟨[⟨2, some 2⟩], [], [], []⟩) :=
  C10_subscribe_hidden_course_not_found u_regular 2 ⟨[⟨2, some 2⟩], [], [], []⟩
    rfl rfl rfl (by decide)

/-! ## Claim C5 -/

/-- Claim C5 (amended): a moderator (in the moderators group, not staff)
may update any lesson and may not create one; delete is denied except on
lessons the moderator owns, where CanDeleteContent grants the owner. An
admin (is_staff) may read, update and delete any lesson, and may create
exactly when not also in the moderators group. -/
theorem C5_moderator_admin_lesson_rights (u : User) (lid : Nat) (db : DB)
    (l : Lesson)
    (hauth : u.is_authenticated = true)
    (hfind : db.lessons.find? (fun x => x.id == lid) = some l) :
    ((u.is_staff = false ∧ u.in_moderators = true) →
      LessonViewSet_update u lid db = Outcome.ok
      ∧ LessonViewSet_create_allowed u = false
      ∧ LessonViewSet_destroy u lid db
          = (if l.owner == some u.id then Outcome.ok else Outcome.forbidden))
    ∧ (u.is_staff = true →
      LessonViewSet_retrieve u lid db = Outcome.ok
      ∧ LessonViewSet_update u lid db = Outcome.ok
      ∧ LessonViewSet_destroy u lid db = Outcome.ok
      ∧ LessonViewSet_create_allowed u = !u.in_moderators) := by
  constructor
  · rintro ⟨hs, hm⟩
    have hqs : LessonViewSet_get_queryset u db = db.lessons := by
      simp [LessonViewSet_get_queryset, hm]
    refine ⟨?_, ?_, ?_⟩
    · simp [LessonViewSet_update, IsAuthenticated_has_permission, hauth, hqs,
        hfind, IsOwnerOrModerator_has_object_permission, Method.isSafe, hm]
    · simp [LessonViewSet_create_allowed, IsAuthenticated_has_permission,
        CanCreateContent_has_permission, hauth, hm]
    · simp [LessonViewSet_destroy, IsAuthenticated_has_permission, hauth, hqs,
        hfind, CanDeleteContent_has_object_permission, hs]
  · intro hs
    have hqs : LessonViewSet_get_queryset u db = db.lessons := by
      simp [LessonViewSet_get_queryset, hs]
    refine ⟨?_, ?_, ?_, ?_⟩
    · simp [LessonViewSet_retrieve, IsAuthenticated_has_permission, hauth, hqs,
        hfind]
    · simp [LessonViewSet_update, IsAuthenticated_has_permission, hauth, hqs,
        hfind, IsOwnerOrModerator_has_object_permission, Method.isSafe, hs]
    · simp [LessonViewSet_destroy, IsAuthenticated_has_permission, hauth, hqs,
        hfind, CanDeleteContent_has_object_permission, hs]
    · cases hmod : u.in_moderators <;>
        simp [LessonViewSet_create_allowed, IsAuthenticated_has_permission,
          CanCreateContent_has_permission, hauth, hmod]

/-- Witness for C5: the amended statement for the moderator fixture over
a store holding one lesson owned by user 9. -/
theorem C5_moderator_admin_lesson_rights_witness :
    ((u_moderator.is_staff = false ∧ u_moderator.in_moderators = true) →
      LessonViewSet_update u_moderator 1 ⟨[], [⟨1, 1, some 9, 1⟩], [], []⟩
          = Outcome.ok
      ∧ LessonViewSet_create_allowed u_moderator = false
      ∧ LessonViewSet_destroy u_moderator 1 ⟨[], [⟨1, 1, some 9, 1⟩], [], []⟩
          = (if (⟨1, 1, some 9, 1⟩ : Lesson).owner == some u_moderator.id
              then Outcome.ok else Outcome.forbidden))
    ∧ (u_moderator.is_staff = true →
      LessonViewSet_retrieve u_moderator 1 ⟨[], [⟨1, 1, some 9, 1⟩], [], []⟩
          = Outcome.ok
      ∧ LessonViewSet_update u_moderator 1 ⟨[], [⟨1, 1, some 9, 1⟩], [], []⟩
          = Outcome.ok
      ∧ LessonViewSet_destroy u_moderator 1 ⟨[], [⟨1, 1, some 9, 1⟩], [], []⟩
          = Outcome.ok
      ∧ LessonViewSet_create_allowed u_moderator = !u_moderator.in_moderators) :=
  C5_moderator_admin_lesson_rights u_moderator 1 ⟨[], [⟨1, 1, some 9, 1⟩], [], []⟩
    ⟨1, 1, some 9, 1⟩ rfl (by decide)

/-! ## Claim C6 -/

/-- Claim C6: listing courses, a regular user sees exactly the courses
they own, while a staff member or moderators-group member sees the whole
table. -/
theorem C6_course_list_visibility (u : User) (db : DB) (c : Course) :
    (u.is_staff = false → u.in_moderators = false →
      (c ∈ CourseViewSet_get_queryset u db ↔ c ∈ db.courses ∧ c.owner = some u.id))
    ∧ ((u.is_staff = true ∨ u.in_moderators = true) →
      CourseViewSet_get_queryset u db = db.courses) := by
  constructor
  · intro hs hm
    simp [CourseViewSet_get_queryset, hs, hm, List.mem_filter]
  · intro h
    rcases h with h | h <;> simp [CourseViewSet_get_queryset, h]

/-- Witness for C6: the visibility statement for the regular user
fixture, one owned and one foreign course, at the owned course. -/
theorem C6_course_list_visibility_witness :
    ((⟨1, some 1⟩ : Course) ∈ CourseViewSet_get_queryset u_regular
        ⟨[⟨1, some 1⟩, ⟨2, some 2⟩], [], [], []⟩
      ↔ (⟨1, some 1⟩ : Course) ∈ (⟨[⟨1, some 1⟩, ⟨2, some 2⟩], [], [], []⟩ : DB).courses
          ∧ (⟨1, some 1⟩ : Course).owner = some u_regular.id) :=
  (C6_course_list_visibility u_regular ⟨[⟨1, some 1⟩, ⟨2, some 2⟩], [], [], []⟩
    ⟨1, some 1⟩).1 rfl rfl


/-! ## Claim C7 -/

/-- The descending-order first element is absent exactly for the empty
lesson list. -/
lemma order_desc_first_eq_none (ls : List Lesson) :
    order_desc_first ls = none ↔ ls = [] := by
  cases ls with
  | nil => simp [order_desc_first]
  | cons x xs =>
    simp only [order_desc_first]
    cases h : order_desc_first xs <;> simp <;> split <;> simp

/-- The order of the descending-order first element is the maximum of
the order fields. -/
lemma order_desc_first_spec (ls : List Lesson) :
    (order_desc_first ls).map (fun x => x.order) = spec_max_order ls := by
  induction ls with
  | nil => rfl
  | cons x xs ih =>
    cases h : order_desc_first xs with
    | none =>
      have hs : spec_max_order xs = none := by rw [← ih, h]; rfl
      simp [order_desc_first, spec_max_order, h, hs]
    | some m =>
      have hs : spec_max_order xs = some m.order := by rw [← ih, h]; rfl
      simp only [order_desc_first, spec_max_order, h, hs]
      by_cases hle : m.order ≤ x.order
      · simp [hle, Nat.max_eq_left hle]
      · have hxm : x.order ≤ m.order := by omega
        simp [hle, Nat.max_eq_right hxm]

/-- Claim C7: saving a lesson whose order was left at the sentinel
default 0 assigns the maximal order among the lessons of the same course
plus one, or 1 when the course has no lessons; and the assignment depends
only on the same-course lessons, so other courses never affect it. -/
theorem C7_lesson_auto_order (l : Lesson) (db : DB) (h0 : l.order = 0) :
    (∀ m, spec_max_order (db.lessons.filter (fun x => x.course == l.course)) = some m →
      (Lesson_save l db).order = m + 1)
    ∧ (db.lessons.filter (fun x => x.course == l.course) = [] →
      (Lesson_save l db).order = 1)
    ∧ (∀ db2 : DB,
        db2.lessons.filter (fun x => x.course == l.course)
          = db.lessons.filter (fun x => x.course == l.course) →
        Lesson_save l db2 = Lesson_save l db) := by
  refine ⟨?_, ?_, ?_⟩
  · intro m hm
    have hb := order_desc_first_spec (db.lessons.filter (fun x => x.course == l.course))
    rw [hm] at hb
    rcases Option.map_eq_some'.mp hb with ⟨ll, hd, hbo⟩
    simp [Lesson_save, h0, hd, hbo]
  · intro hnil
    simp [Lesson_save, h0, hnil, order_desc_first]
  · intro db2 heq
    simp [Lesson_save, h0, heq]

/-- Witness for C7: a fresh lesson of course 1 saved against a store
where course 1 has maximal order 1 and another course holds order 5 is
assigned order 2. -/
theorem C7_lesson_auto_order_witness :
    (Lesson_save ⟨3, 1, some 1, 0⟩
      ⟨[], [⟨1, 1, some 1, 1⟩, ⟨2, 2, some 9, 5⟩], [], []⟩).order = 1 + 1 :=
  (C7_lesson_auto_order ⟨3, 1, some 1, 0⟩
    ⟨[], [⟨1, 1, some 1, 1⟩, ⟨2, 2, some 9, 5⟩], [], []⟩ rfl).1 1 (by decide)

/-! ## Claim C8 -/

/-- The deactivation job preserves the number of user rows. -/
lemma deactivate_length (now : Int) (us : List User) :
    (deactivate_inactive_users now us).length = us.length := by
  simp [deactivate_inactive_users]

/-- Claim C8: after the deactivation job, a user whose last_login is
older than 30 days with is_active true and neither staff nor superuser
has is_active false; a staff member or superuser is returned unchanged
regardless of last_login. -/
theorem C8_deactivation_job (now : Int) (us : List User) (i : Fin us.length) :
    ((∃ t, (us.get i).last_login = some t ∧ t < now - seconds_30d)
      ∧ (us.get i).is_active = true ∧ (us.get i).is_staff = false
      ∧ (us.get i).is_superuser = false →
      (deactivate_inactive_users now us).get
          ⟨i, by rw [deactivate_length]; exact i.isLt⟩
        = { us.get i with is_active := false })
    ∧ ((us.get i).is_staff = true ∨ (us.get i).is_superuser = true →
      (deactivate_inactive_users now us).get
          ⟨i, by rw [deactivate_length]; exact i.isLt⟩
        = us.get i) := by
  constructor
  · rintro ⟨⟨t, hl, ht⟩, hact, hs, hsup⟩
    simp only [List.get_eq_getElem] at hl hact hs hsup ⊢
    simp only [deactivate_inactive_users, List.getElem_map]
    split
    · rfl
    · rename_i hc
      rw [hl, hact, hs, hsup] at hc
      simp [ht] at hc
  · intro h
    simp only [List.get_eq_getElem] at h ⊢
    simp only [deactivate_inactive_users, List.getElem_map]
    split
    · rename_i hc
      rcases h with h | h <;> rw [h] at hc <;> simp at hc
    · rfl

/-- Witness for C8: a user whose last login was at time 0, checked 60
days later, comes out deactivated. -/
theorem C8_deactivation_job_witness :
    (deactivate_inactive_users (seconds_30d + seconds_30d)
        [⟨1, true, false, false, true, some 0, []⟩]).get ⟨0, by decide⟩
      = { (([⟨1, true, false, false, true, some 0, []⟩] : List User).get
            ⟨0, by decide⟩) with is_active := false } :=
  (C8_deactivation_job (seconds_30d + seconds_30d)
    [⟨1, true, false, false, true, some 0, []⟩] ⟨0, by decide⟩).1
    ⟨⟨0, rfl, by decide⟩, rfl, rfl, rfl⟩

/-! ## Claim C9 -/

/-- The stale-payment sweep preserves the number of payment rows. -/
lemma check_payment_length (now : Int) (ps : List Payments) :
    (check_payment_status now ps).length = ps.length := by
  simp [check_payment_status]

/-- Claim C9 (amended): after the sweep, a payment with status pending
whose payment_date is at least 24 hours in the past (at or before now
minus 24 hours, the cutoff being inclusive) has status failed and all its
other fields are unchanged; every payment outside that inclusive cutoff
set is returned unchanged in all fields. -/
theorem C9_stale_payment_sweep (now : Int) (ps : List Payments) (i : Fin ps.length) :
    ((ps.get i).payment_status = pending_status ∧
      (ps.get i).payment_date ≤ now - seconds_24h →
      (check_payment_status now ps).get
          ⟨i, by rw [check_payment_length]; exact i.isLt⟩
        = { ps.get i with payment_status := failed_status })
    ∧ (¬((ps.get i).payment_status = pending_status ∧
        (ps.get i).payment_date ≤ now - seconds_24h) →
      (check_payment_status now ps).get
          ⟨i, by rw [check_payment_length]; exact i.isLt⟩
        = ps.get i) := by
  constructor
  · rintro ⟨hp, hd⟩
    simp only [List.get_eq_getElem] at hp hd ⊢
    simp only [check_payment_status, List.getElem_map]
    split
    · rfl
    · rename_i hc
      rw [hp] at hc
      simp [hd] at hc
  · intro h
    simp only [List.get_eq_getElem] at h ⊢
    simp only [check_payment_status, List.getElem_map]
    split
    · rename_i hc
      simp only [Bool.and_eq_true, beq_iff_eq, decide_eq_true_eq] at hc
      exact absurd hc h
    · rfl

/-- Witness for C9: a pending payment dated 0, swept at 48 hours, comes
out failed with all other fields intact. -/
theorem C9_stale_payment_sweep_witness :
    (check_payment_status (seconds_24h + seconds_24h)
        [⟨1, 1, 0, 100, cash_method, pending_status, some 1, none⟩]).get ⟨0, by decide⟩
      = { (([⟨1, 1, 0, 100, cash_method, pending_status, some 1, none⟩] :
            List Payments).get ⟨0, by decide⟩) with payment_status := failed_status } :=
  (C9_stale_payment_sweep (seconds_24h + seconds_24h)
    [⟨1, 1, 0, 100, cash_method, pending_status, some 1, none⟩] ⟨0, by decide⟩).1
    ⟨rfl, by decide⟩
